import Mathlib

/-!
Shallow embedding of the zapmail-mcp server core (src/index.js) in Lean 4:
the Cache, RateLimiter, request-executor retry loop (`apiFetch`), the
wallet-first purchase flow (`purchaseDomains`), and the rule-based
natural-language planner (`planFromRules`, `planFromLLM`, plan selection in
the `plan_and_execute` tool handler).  Logging and metrics side effects are
elided; everything else follows the JavaScript control flow statement by
statement.
-/

namespace Zapmail

/-! ## Cache (src/index.js, class Cache)

JS `Map` is modelled as an association list in insertion order; `Map.set` on
an existing key overwrites in place (keeping its position), otherwise
appends; `Map.delete` removes the sole entry with that key; iteration order
(`keys().next().value`) yields the first-inserted key. -/

/-- One JS Map binding update: overwrite in place if the key is present,
else append at the end (JS `Map.set` insertion-order semantics). -/
def mapSet {β : Type} (l : List (String × β)) (k : String) (v : β) :
    List (String × β) :=
  match l with
  | [] => [(k, v)]
  | (k', v') :: t => if k' = k then (k, v) :: t else (k', v') :: mapSet t k v

/-- JS `Map.get`: first binding of the key, if any. -/
def mapGet {β : Type} (l : List (String × β)) (k : String) : Option β :=
  match l with
  | [] => none
  | (k', v') :: t => if k' = k then some v' else mapGet t k

/-- JS `Map.delete`: drop the first binding of the key. -/
def mapDelete {β : Type} (l : List (String × β)) (k : String) :
    List (String × β) :=
  match l with
  | [] => []
  | (k', v') :: t => if k' = k then t else (k', v') :: mapDelete t k

/-- A cache entry: `{ value, expires: Date.now() + ttl }`. -/
structure CEntry (α : Type) where
  value : α
  expires : Nat
deriving DecidableEq, Repr

/-- The `Cache` object state: capacity, default TTL, and the backing `Map`. -/
structure CacheT (α : Type) where
  maxSize : Nat
  ttl : Nat
  entries : List (String × CEntry α)
deriving DecidableEq, Repr

namespace CacheT

/-- `Cache.set(key, value, ttl)` at time `now`: if `size >= maxSize`, delete
`cache.keys().next().value` (the first-inserted key; when the map is empty
that value is `undefined` and the delete is a no-op), then set the entry
with `expires = now + ttl`. -/
def set {α : Type} (c : CacheT α) (k : String) (v : α) (now ttl : Nat) :
    CacheT α :=
  let entries :=
    if c.maxSize ≤ c.entries.length then
      match c.entries with
      | [] => []
      | _ :: t => t
    else c.entries
  { c with entries := mapSet entries k ⟨v, now + ttl⟩ }

/-- `Cache.get(key)` at time `now`: `null` when absent; when
`now > expires`, delete the entry and return `null`; otherwise return the
stored value with the cache unchanged (no TTL refresh). -/
def get {α : Type} (c : CacheT α) (k : String) (now : Nat) :
    CacheT α × Option α :=
  match mapGet c.entries k with
  | none => (c, none)
  | some e =>
    if e.expires < now then ({ c with entries := mapDelete c.entries k }, none)
    else (c, some e.value)

/-- `Cache.clear()`. -/
def clear {α : Type} (c : CacheT α) : CacheT α := { c with entries := [] }

/-- `Cache.size()`. -/
def size {α : Type} (c : CacheT α) : Nat := c.entries.length

end CacheT

/-! ## RateLimiter (src/index.js, class RateLimiter)

`checkLimit` is modelled per key: given the recorded timestamps and the
current time it returns the new timestamp list together with the number of
milliseconds the caller is suspended (0 when no wait happens).  Timestamps
are integers (`Date.now()`). -/

/-- `Math.min(...list)` on a list of timestamps (`none` for the empty
spread, where JS yields `Infinity`; that case arises only with
`maxRequests = 0`, where the subsequent `sleep(-Infinity)` resolves
immediately, i.e. no wait). -/
def listMin : List Int → Option Int
  | [] => none
  | t :: ts =>
    match listMin ts with
    | none => some t
    | some m => some (min t m)

/-- `RateLimiter.checkLimit(key)`: prune the timestamps to
`time > now - windowMs`; if at least `maxRequests` remain, suspend for
`windowMs - (now - oldest)`; then append `now`.  Returns the stored list
and the wait (an `Int`; the code never raises a rate-limit error). -/
def checkLimit (maxRequests : Nat) (windowMs : Int) (requests : List Int)
    (now : Int) : List Int × Int :=
  let windowStart := now - windowMs
  let recent := requests.filter (fun t => windowStart < t)
  let wait : Int :=
    if maxRequests ≤ recent.length then
      match listMin recent with
      | some oldest => windowMs - (now - oldest)
      | none => 0
    else 0
  (recent ++ [now], wait)

/-- Issue a sequence of requests at the given times through `checkLimit`,
starting from a timestamp list; returns the final list and the wait each
request experienced, in order. -/
def runChecks (maxRequests : Nat) (windowMs : Int) :
    List Int → List Int → List Int × List Int
  | reqs, [] => (reqs, [])
  | reqs, t :: ts =>
    let (r', w) := checkLimit maxRequests windowMs reqs t
    let (rf, ws) := runChecks maxRequests windowMs r' ts
    (rf, w :: ws)

/-! ## Request executor (src/index.js, apiFetch)

An HTTP response body is a JSON document treated opaquely by `apiFetch`
except for the `message` field used in error messages; a parse failure
leaves `json = null` and the raw text is used.  Each attempt's outcome is
supplied as data: either a response (status, parsed JSON if any, statusText,
raw text) or a network-level exception (timeout/abort/connection error). -/

/-- An opaque parsed JSON response body; `tag` is its identity, `message`
the only field `apiFetch` inspects. -/
structure JsonDoc where
  tag : Nat := 0
  message : Option String := none
deriving DecidableEq, Repr

/-- The value `apiFetch` resolves with: the parsed JSON, or
`{ raw: text }` when the body was not JSON. -/
inductive Val where
  | parsed (d : JsonDoc)
  | raw (text : String)
deriving DecidableEq, Repr

/-- Error taxonomy actually present in the source: `ValidationError`
(code VALIDATION_ERROR) and `ApiError` (code API_ERROR) extend
`ZapmailError`; network-level failures are plain exceptions re-raised
as-is.  The source defines no `ConfigurationError` class. -/
inductive ErrName where
  | validationError
  | apiError
  | networkError
deriving DecidableEq, Repr

/-- A terminal error thrown by `apiFetch`. -/
structure ZErr where
  name : ErrName
  code : String
  message : String
  field : Option String := none
  status : Option Nat := none
  response : Option JsonDoc := none
deriving DecidableEq, Repr

/-- `new ValidationError(message, field, value)`. -/
def valErr (message field : String) : ZErr :=
  { name := .validationError, code := "VALIDATION_ERROR", message := message,
    field := some field }

/-- JS `a || b` on strings (empty string is falsy). -/
def jsOr (a b : String) : String := if a = "" then b else a

/-- JS `String.prototype.toLowerCase` (character-wise). -/
def jsToLower (s : String) : String := String.mk (s.data.map Char.toLower)

/-- A whitespace character as JS `String.prototype.trim` removes them
(ASCII range). -/
def isJsSpace (c : Char) : Bool :=
  c = ' ' || c = '\t' || c = '\n' || c = '\r' || c = '\x0b' || c = '\x0c'

/-- JS `String.prototype.trim`. -/
def jsTrim (s : String) : String :=
  String.mk (((s.data.dropWhile isJsSpace).reverse.dropWhile isJsSpace).reverse)

/-- `new ApiError("HTTP status: msg", status, json)` with
`msg = json?.message || resp.statusText || text`. -/
def apiErr (status : Nat) (json : Option JsonDoc) (statusText text : String) :
    ZErr :=
  { name := .apiError, code := "API_ERROR",
    message := "HTTP " ++ toString status ++ ": " ++
      jsOr (match json with | some d => d.message.getD "" | none => "")
        (jsOr statusText text),
    status := some status, response := json }

/-- A plain exception from `fetch` (timeout abort, connection reset). -/
def netErr (message : String) : ZErr :=
  { name := .networkError, code := "", message := message }

/-- The outcome of one HTTP attempt, as the environment supplies it. -/
inductive Outcome where
  | resp (status : Nat) (json : Option JsonDoc) (statusText text : String)
  | exn (message : String)
deriving DecidableEq, Repr

deriving instance DecidableEq for Except

/-- What a call to `apiFetch` did: number of attempts performed, backoff
delays slept between attempts (in order, in ms), and the terminal result. -/
structure FetchResult where
  attempts : Nat
  delays : List Nat
  result : Except ZErr Val
deriving DecidableEq, Repr

/-- `resp.ok`: status in [200, 300). -/
def respOk (status : Nat) : Bool := 200 ≤ status && status < 300

/-- The `for (let attempt = 0; attempt <= maxRetries; attempt++)` loop of
`apiFetch`.  On a 429/5xx response with `attempt < maxRetries`, sleep
`min(2500 * (attempt + 1), 9000)` and retry.  Otherwise a non-ok response
throws an `ApiError` — which the `catch` block of the same loop intercepts:
at `attempt === maxRetries` it is re-raised, else the code sleeps
`700 * (attempt + 1)` and retries.  A network exception takes the same
catch path.  An ok response resolves with `json ?? { raw: text }`.
(The `.error (netErr "model: outcome list exhausted")` case is a model
artifact for an under-supplied outcome list; the JS loop always receives a
response or exception from `fetch` on every attempt.) -/
def attemptLoop (maxRetries : Nat) :
    Nat → List Outcome → List Nat → FetchResult
  | attempt, [], delays =>
    ⟨attempt, delays, .error (netErr "model: outcome list exhausted")⟩
  | attempt, .resp status json statusText text :: rest, delays =>
    if (status = 429 ∨ 500 ≤ status) ∧ attempt < maxRetries then
      attemptLoop maxRetries (attempt + 1) rest
        (delays ++ [min (2500 * (attempt + 1)) 9000])
    else if respOk status then
      ⟨attempt + 1, delays,
        .ok (match json with | some d => .parsed d | none => .raw text)⟩
    else if attempt = maxRetries then
      ⟨attempt + 1, delays, .error (apiErr status json statusText text)⟩
    else
      attemptLoop maxRetries (attempt + 1) rest
        (delays ++ [700 * (attempt + 1)])
  | attempt, .exn message :: rest, delays =>
    if attempt = maxRetries then
      ⟨attempt + 1, delays, .error (netErr message)⟩
    else
      attemptLoop maxRetries (attempt + 1) rest (delays ++ [700 * (attempt + 1)])

/-- `apiFetch(path, { method, ... })` up to the attempt loop: validate
`path` and `method` (`validateString`: required, a string, length at most
1000), pass the rate-limiter gate (suspends, never fails), serve a GET
from the cache when enabled, then require the API key — throwing
`ValidationError("ZAPMAIL_API_KEY not configured", "apiKey", null)` when it
is absent — before any HTTP attempt is made. -/
def apiFetchModel (path method : String) (cacheEnabled : Bool)
    (cached : Option Val) (apiKey : Option String) (maxRetries : Nat)
    (outcomes : List Outcome) : FetchResult :=
  if path = "" then ⟨0, [], .error (valErr "path is required" "path")⟩
  else if 1000 < path.length then
    ⟨0, [], .error (valErr "path exceeds maximum length of 1000" "path")⟩
  else if method = "" then ⟨0, [], .error (valErr "method is required" "method")⟩
  else if 1000 < method.length then
    ⟨0, [], .error (valErr "method exceeds maximum length of 1000" "method")⟩
  else
    match (if method = "GET" && cacheEnabled then cached else none) with
    | some v => ⟨0, [], .ok v⟩
    | none =>
      match apiKey with
      | none => ⟨0, [], .error (valErr "ZAPMAIL_API_KEY not configured" "apiKey")⟩
      | some _ => attemptLoop maxRetries 0 outcomes []

/-! ## Wallet-first purchase (src/index.js, purchaseDomains / getWalletBalance) -/

/-- One element of an availability response's `availableDomains` array. -/
structure AvailItem where
  domainName : String
  domainPrice : Option Int := none
deriving Repr

/-- The availability response shape `purchaseDomains` reads:
`avail?.availableDomains || avail?.data?.availableDomains` and
`avail?.price ?? avail?.data?.price ?? 0`. -/
structure AvailResp where
  availableDomains : Option (List AvailItem) := none
  dataAvailableDomains : Option (List AvailItem) := none
  price : Option Int := none
  dataPrice : Option Int := none
deriving Repr

/-- Per-domain price resolution inside the `purchaseDomains` loop: prefer
the matching entry's `domainPrice` from the `availableDomains` list, then
the first entry's, and when that leaves `price` falsy (0), fall back to
`avail?.price ?? avail?.data?.price ?? 0`. -/
def resolvePrice (d : String) (avail : AvailResp) : Int :=
  let list :=
    match avail.availableDomains with
    | some l => some l
    | none => avail.dataAvailableDomains
  let price : Int :=
    match list with
    | some l =>
      if l.length > 0 then
        match l.find? (fun item => jsToLower item.domainName = jsToLower d) with
        | some m =>
          match m.domainPrice with
          | some p => p
          | none =>
            match l.head? with
            | some h => h.domainPrice.getD 0
            | none => 0
        | none =>
          match l.head? with
          | some h => h.domainPrice.getD 0
          | none => 0
      else 0
    | none => 0
  if price = 0 then ((avail.price).getD ((avail.dataPrice).getD 0)) else price

/-- `total += (price || 0) * years` folded over the requested domains
(`availOf` supplies each domain's availability response). -/
def purchaseTotal (domains : List String) (availOf : String → AvailResp)
    (years : Int) : Int :=
  domains.foldl (fun acc d => acc + resolvePrice d (availOf d) * years) 0

/-- The `useWallet`/`total` part of `purchaseDomains`: `useWallet` stays
`false` unless `preferWallet`, in which case the wallet balance is fetched
and `useWallet = bal >= total`. -/
def purchaseDomainsModel (domains : List String) (availOf : String → AvailResp)
    (years : Int) (preferWallet : Bool) (bal : Int) : Bool × Int :=
  let total := purchaseTotal domains availOf years
  (if preferWallet then decide (total ≤ bal) else false, total)

/-! ## Intent-pattern matching (src/index.js, INTENT_PATTERNS)

Every intent regex has the shape `\b(alt|…)\b.*\b(alt|…)\b…` with the `i`
flag: a sequence of word-bounded literal alternations separated by `.*`.
It is embedded as a matcher over the raw character list: an alternation
matches at a position when the literal compares case-insensitively and a
JS word boundary (`\w = [A-Za-z0-9_]` membership changes) holds at both
ends; `.*` lets the next group start at or after the previous group's end.
Among the matches of one group those with distinct start positions have
distinct ends, and taking the minimal end over all starts is exhaustive
for the existence of a full match, which is what `RegExp.test` reports. -/

/-- JS `\w`: ASCII letter, digit or underscore. -/
def isWordChar (c : Char) : Bool := c.isAlphanum || c = '_'

/-- Character of `s` at index `i`, as a non-word placeholder when out of
range (regex boundaries treat out-of-range as non-word). -/
def charAt (s : List Char) (i : Nat) : Char := s.getD i ' '

/-- JS `\b` at index `i` of `s`: word-ness differs between `s[i-1]` and
`s[i]` (out of range counts as non-word). -/
def boundaryAt (s : List Char) (i : Nat) : Bool :=
  let before := match i with
    | 0 => false
    | j + 1 => isWordChar (charAt s j)
  before != isWordChar (charAt s i)

/-- Case-insensitive literal match of `lit` at index `i` of `s`. -/
def matchLitAt (s : List Char) (i : Nat) (lit : List Char) : Bool :=
  match lit with
  | [] => true
  | c :: cs =>
    if i < s.length then
      (charAt s i).toLower = c.toLower && matchLitAt s (i + 1) cs
    else false

/-- Match one word-bounded alternation `\b(alt|…)\b` at index `i`,
returning the end index of the first alternative that matches with both
boundaries (at most one can, since a strict-prefix alternative's closing
boundary excludes any longer one). -/
def groupMatchAt (s : List Char) (i : Nat) (alts : List (List Char)) :
    Option Nat :=
  match alts with
  | [] => none
  | a :: rest =>
    if boundaryAt s i && matchLitAt s i a && boundaryAt s (i + a.length) then
      some (i + a.length)
    else groupMatchAt s i rest

/-- Minimal end index over all matches of the alternation starting at
index ≥ `i` (`fuel` bounds the scan; `s.length + 1` suffices). -/
def groupMinEnd (s : List Char) (alts : List (List Char)) :
    Nat → Nat → Option Nat
  | _, 0 => none
  | i, fuel + 1 =>
    let rest := groupMinEnd s alts (i + 1) fuel
    match groupMatchAt s i alts, rest with
    | some e, some e' => some (min e e')
    | some e, none => some e
    | none, r => r

/-- `RegExp.test` for `\b(g₁)\b.*\b(g₂)\b.*…`: each group must match at or
after the previous group's minimal end. -/
def seqMatch (s : List Char) : List (List (List Char)) → Nat → Bool
  | [], _ => true
  | g :: gs, i =>
    match groupMinEnd s g i (s.length + 1 - i) with
    | some e => seqMatch s gs e
    | none => false

/-- Build an intent test from the regex's word-alternation groups. -/
def mkPat (groups : List (List String)) (q : String) : Bool :=
  seqMatch q.data (groups.map (fun g => g.map String.data)) 0

/-- Case-insensitive unbounded substring test, for the bare
`/reachinbox/i`-style `RegExp.test` calls used to choose the export app. -/
def containsLit (q : String) (lit : String) : Bool :=
  let s := q.data
  let l := lit.data
  (List.range (s.length + 1)).any (fun i => matchLitAt s i l)

/-! ## Parameter extraction (src/index.js, simpleParseDomains / Years / MailboxCount) -/

/-- The TLD alternatives of `simpleParseDomains`'s regex, in alternation
order: `(?:com|net|org|io|ai|app|co|in)`. -/
def tldAlts : List (List Char) :=
  ["com", "net", "org", "io", "ai", "app", "co", "in"].map String.data

/-- `[a-z0-9-]` with the `i` flag. -/
def isDomainChar (c : Char) : Bool :=
  c.isAlphanum || c = '-'

/-- Length of the maximal run of characters satisfying `p` from index `i`. -/
def runLength (s : List Char) (p : Char → Bool) (i : Nat) (fuel : Nat) : Nat :=
  match fuel with
  | 0 => 0
  | fuel + 1 =>
    if i < s.length && p (charAt s i) then runLength s p (i + 1) fuel + 1
    else 0

/-- Try `\b([a-z0-9-]+\.(?:com|…))\b` at index `i`: greedy label run, a
literal dot, then the first TLD alternative that matches with a closing
word boundary.  Returns the end index and the matched text lowercased. -/
def domainAt (s : List Char) (i : Nat) : Option (Nat × List Char) :=
  if !boundaryAt s i then none
  else
    let r := runLength s isDomainChar i (s.length + 1)
    if r = 0 then none
    else if charAt s (i + r) = '.' then
      match groupMatchAt s (i + r + 1) tldAlts with
      | some e =>
        some (e, ((s.drop i).take (e - i)).map Char.toLower)
      | none => none
    else none

/-- The global scan of `simpleParseDomains`: advance past each match (the
regex `lastIndex`), collect into a `Set` (insertion order, deduplicated). -/
def parseDomainsAux (s : List Char) : Nat → Nat → List (List Char) →
    List (List Char)
  | 0, _, acc => acc.reverse
  | fuel + 1, i, acc =>
    if i < s.length then
      match domainAt s i with
      | some (e, d) =>
        parseDomainsAux s fuel e (if d ∈ acc then acc else d :: acc)
      | none => parseDomainsAux s fuel (i + 1) acc
    else acc.reverse

/-- `simpleParseDomains(text)`: all distinct lowercased
`label.(com|net|org|io|ai|app|co|in)` tokens, in first-occurrence order. -/
def simpleParseDomains (text : String) : List String :=
  (parseDomainsAux text.data (text.data.length + 1) 0 []).map
    (fun l => String.mk l)

/-- `parseInt` on a digit run. -/
def digitsToNat (ds : List Char) : Nat :=
  ds.foldl (fun acc c => acc * 10 + (c.toNat - '0'.toNat)) 0

/-- Try `\b(\d+)\s*(?:alt|…)\b` at index `i`: digits, optional whitespace,
then a word-closed unit alternative; yields the parsed number. -/
def countAt (s : List Char) (i : Nat) (units : List (List Char)) :
    Option Nat :=
  if !boundaryAt s i then none
  else
    let r := runLength s Char.isDigit i (s.length + 1)
    if r = 0 then none
    else
      let w := runLength s (fun c => c = ' ' || c = '\t' || c = '\n' ||
        c = '\r' || c = '\x0b' || c = '\x0c') (i + r) (s.length + 1)
      match groupMatchAt s (i + r + w) units with
      | some _ => some (digitsToNat ((s.drop i).take r))
      | none => none

/-- First match of `\b(\d+)\s*(?:alt|…)\b` scanning left to right. -/
def findCount (s : List Char) (units : List (List Char)) :
    Nat → Nat → Option Nat
  | 0, _ => none
  | fuel + 1, i =>
    if i < s.length then
      match countAt s i units with
      | some n => some n
      | none => findCount s units fuel (i + 1)
    else none

/-- `simpleParseYears(text)`: `Math.max(1, parseInt(m[1]))` for the first
`\b(\d+)\s*(?:year|years|yr|yrs)\b` match, defaulting to 1. -/
def simpleParseYears (text : String) : Nat :=
  match findCount text.data
      (["year", "years", "yr", "yrs"].map String.data)
      (text.data.length + 1) 0 with
  | some n => max 1 n
  | none => 1

/-- `simpleParseMailboxCount(text)`: first
`\b(\d+)\s*(?:mailboxes?|inboxes?)\b` match, defaulting to 3. -/
def simpleParseMailboxCount (text : String) : Nat :=
  match findCount text.data
      (["mailbox", "mailboxes", "inbox", "inboxes"].map String.data)
      (text.data.length + 1) 0 with
  | some n => max 1 n
  | none => 3

/-! ## Plan model (src/index.js, planFromRules / planFromLLM / plan_and_execute) -/

/-- The request bodies the rule-based planner attaches to `api` steps. -/
inductive StepBody where
  | availability (domainName : String) (years : Nat)
  | account (email password app : String)
  | exportReq (apps : List String) (status : Option String)
      (contains : Option String) (ids : Option (List String))
deriving DecidableEq, Repr

/-- One plan step: the JS object's fields, absent ones as `none`. -/
structure PlanStep where
  action : String
  slug : Option String := none
  path : Option String := none
  method : Option String := none
  body : Option StepBody := none
  bodyFrom : Option String := none
  note : Option String := none
  description : Option String := none
  years : Option Nat := none
  domains : Option (List String) := none
  count : Option Nat := none
deriving DecidableEq, Repr

/-- `{ strategy, steps }` as returned by the planners. -/
structure Plan where
  strategy : String
  steps : List PlanStep
deriving DecidableEq, Repr

/-- The intents of `INTENT_PATTERNS` plus the `CREATE_AND_CONNECT`
fallback of `planFromRules`. -/
inductive Intent where
  | LIST_WORKSPACES | LIST_DOMAINS | CHECK_DOMAIN | BUY_DOMAINS
  | CREATE_MAILBOXES_EMPTY | CONNECT_EXPORT_APP
  | EXPORT_TO_REACHINBOX | EXPORT_TO_INSTANTLY | EXPORT_TO_SMARTLEAD
  | EXPORT_TO_REPLYIO | EXPORT_MAILBOXES | EXPORT_CSV | EXPORT_SPECIFIC
  | EXPORT_BY_DOMAIN | CREATE_AND_CONNECT
deriving DecidableEq, Repr

/-- `INTENT_PATTERNS`, in source order, each with its regex's
word-alternation groups (`xs?` alternatives expanded). -/
def INTENT_PATTERNS : List (Intent × (String → Bool)) :=
  [ (.LIST_WORKSPACES, mkPat [["list", "show", "get"],
      ["workspace", "workspaces"]]),
    (.LIST_DOMAINS, mkPat [["list", "show", "get"], ["domain", "domains"]]),
    (.CHECK_DOMAIN, mkPat [["check", "is", "are"], ["domain", "domains"],
      ["available"]]),
    (.BUY_DOMAINS, mkPat [["buy", "purchase", "register"],
      ["domain", "domains"]]),
    (.CREATE_MAILBOXES_EMPTY, mkPat [["create", "add", "setup"],
      ["mailbox", "mailboxes", "inbox", "inboxes"], ["0", "zero"],
      ["domain", "domains"]]),
    (.CONNECT_EXPORT_APP, mkPat [["connect", "link", "add"],
      ["instantly", "reachinbox", "smartlead", "reply.io", "replyio"]]),
    (.EXPORT_TO_REACHINBOX, mkPat [["export", "send", "transfer"],
      ["reachinbox", "reachin"]]),
    (.EXPORT_TO_INSTANTLY, mkPat [["export", "send", "transfer"],
      ["instantly"]]),
    (.EXPORT_TO_SMARTLEAD, mkPat [["export", "send", "transfer"],
      ["smartlead"]]),
    (Intent.EXPORT_TO_REPLYIO, mkPat [["export", "send", "transfer"],
      ["reply.io", "replyio"]]),
    (.EXPORT_MAILBOXES, mkPat [["export", "download", "get"],
      ["mailbox", "mailboxes", "email", "emails", "contact", "contacts"]]),
    (.EXPORT_CSV, mkPat [["export", "download", "get"],
      ["csv", "file", "spreadsheet"]]),
    (.EXPORT_SPECIFIC, mkPat [["export", "send"],
      ["specific", "certain", "selected"],
      ["mailbox", "mailboxes", "email", "emails"]]),
    (.EXPORT_BY_DOMAIN, mkPat [["export", "send"], ["domain", "domains"],
      ["mailbox", "mailboxes", "email", "emails"]]) ]

/-- The first-match-wins scan over `INTENT_PATTERNS`. -/
def findIntent (q : String) : Option Intent :=
  (INTENT_PATTERNS.find? (fun p => p.2 q)).map Prod.fst

/-- The matched intent including the compound fallback: when no pattern
matched but `\b(mailboxes?|inboxes?)\b.*\b(connect|link)\b` holds, the
intent becomes `CREATE_AND_CONNECT`. -/
def matchedIntent (q : String) : Option Intent :=
  match findIntent q with
  | some it => some it
  | none =>
    if mkPat [["mailbox", "mailboxes", "inbox", "inboxes"],
        ["connect", "link"]] q then
      some .CREATE_AND_CONNECT
    else none

/-- `{ email, password }` hints passed into `planFromRules`. -/
structure PlanOptions where
  email : Option String := none
  password : Option String := none
deriving DecidableEq, Repr

/-- The app keyword choice shared by `CONNECT_EXPORT_APP` and
`CREATE_AND_CONNECT`: bare substring tests, defaulting to INSTANTLY. -/
def chooseApp (q : String) : String :=
  if containsLit q "reachinbox" then "REACHINBOX"
  else if containsLit q "smartlead" then "SMARTLEAD"
  else if containsLit q "reply.io" || containsLit q "replyio" then "REPLY_IO"
  else "INSTANTLY"

/-- `EXPORT_BY_DOMAIN`'s inline extraction
`/\b(?:from|in|to)\s+([a-zA-Z0-9.-]+\.[a-zA-Z]{2,})\b/i`: a from/in/to
keyword, whitespace, then a dotted hostname.  Modelled as a scan for the
first such occurrence, returning the captured hostname. -/
def isHostChar (c : Char) : Bool := c.isAlphanum || c = '.' || c = '-'

/-- Backtrack the greedy `[a-zA-Z0-9.-]+` run (ends at `start + len`,
descending) until it splits as a nonempty head, a dot, and at least two
trailing letters followed by a word boundary — the
`\.[a-zA-Z]{2,}\b` tail of the capture. -/
def hostShrink (s : List Char) (start : Nat) : Nat → Option (List Char)
  | 0 => none
  | len + 1 =>
    let cand := (s.drop start).take (len + 1)
    let a := (cand.reverse.takeWhile Char.isAlpha).length
    if boundaryAt s (start + len + 1) && 2 ≤ a && a < len &&
        charAt s (start + len - a) = '.' then
      some cand
    else hostShrink s start len

/-- Try the `EXPORT_BY_DOMAIN` capture
`\b(?:from|in|to)\s+([a-zA-Z0-9.-]+\.[a-zA-Z]{2,})\b` at index `i`. -/
def hostCaptureAt (s : List Char) (i : Nat) : Option (List Char) :=
  match groupMatchAt s i (["from", "in", "to"].map String.data) with
  | none => none
  | some j =>
    let w := runLength s (fun c => c = ' ' || c = '\t' || c = '\n' ||
      c = '\r' || c = '\x0b' || c = '\x0c') j (s.length + 1)
    if w = 0 then none
    else
      let start := j + w
      hostShrink s start (runLength s isHostChar start (s.length + 1))

/-- First-occurrence scan for the `EXPORT_BY_DOMAIN` capture. -/
def hostScan (s : List Char) : Nat → Nat → Option String
  | 0, _ => none
  | fuel + 1, i =>
    if i < s.length then
      match hostCaptureAt s i with
      | some h => some (String.mk h)
      | none => hostScan s fuel (i + 1)
    else none

/-- First `EXPORT_BY_DOMAIN` capture in the instruction. -/
def exportByDomainHost (q : String) : Option String :=
  hostScan q.data (q.data.length + 1) 0

/-- JS `options?.email || default` (hints are either absent or non-empty
here; absent falls to the placeholder). -/
def optOr (o : Option String) (dflt : String) : String :=
  match o with
  | some s => jsOr s dflt
  | none => dflt

/-- The steps the `switch (matched)` of `planFromRules` emits for each
intent (`q` the trimmed instruction, `opts` the credential hints); the
`default` branch emits the single no-rule-matched `info` step. -/
def stepsFor (matched : Option Intent) (q : String) (opts : PlanOptions) :
    List PlanStep :=
  match matched with
  | some .LIST_WORKSPACES =>
    [{ action := "api", slug := none, path := some "/v2/workspaces",
       method := some "GET", description := some "List all workspaces" }]
  | some .LIST_DOMAINS =>
    [{ action := "api", slug := none, path := some "/v2/domains",
       method := some "GET",
       description := some "List domains in current workspace" }]
  | some .CHECK_DOMAIN =>
    { action := "decision",
      note := some "Wallet-first is irrelevant for availability; proceed to availability check." }
      :: (simpleParseDomains q).map (fun d =>
        { action := "api",
          slug := some "get-available-domains-for-registration-13521189e0",
          path := some "/v2/domains/available", method := some "POST",
          body := some (.availability d (simpleParseYears q)),
          description := some ("Check availability for " ++ d) })
  | some .BUY_DOMAINS =>
    [{ action := "api", path := some "/v2/wallet/balance",
       method := some "GET", description := some "Get wallet balance" },
     { action := "compute",
       note := some "Check availability & price for each domain, compute total, prefer wallet if sufficient." },
     { action := "api", path := some "/v2/domains/buy",
       method := some "POST", bodyFrom := some "purchaseDomains",
       years := some (simpleParseYears q),
       domains := some (simpleParseDomains q),
       description := some ("Purchase " ++
         toString (simpleParseDomains q).length ++ " domains (wallet-first)") }]
  | some .CREATE_MAILBOXES_EMPTY =>
    [{ action := "api", path := some "/v2/domains", method := some "GET",
       description := some "List domains" },
     { action := "compute", note := some "Filter domains with 0 mailboxes" },
     { action := "api", path := some "/v2/mailboxes", method := some "POST",
       bodyFrom := some "createMailboxesForZeroDomains",
       count := some (simpleParseMailboxCount q),
       description := some ("Create " ++
         toString (simpleParseMailboxCount q) ++
         " mailboxes on each zero-mailbox domain") }]
  | some .CONNECT_EXPORT_APP =>
    [{ action := "api", path := some "/v2/exports/accounts/third-party",
       method := some "POST",
       body := some (.account (optOr opts.email "placeholder@example.com")
         (optOr opts.password "APP_PASSWORD") (chooseApp q)),
       description := some ("Connect third-party app " ++ chooseApp q) }]
  | some .EXPORT_TO_REACHINBOX =>
    [{ action := "info",
       note := some "Export to Reachinbox requires credentials. Please provide your Reachinbox email and password." },
     { action := "api", path := some "/v2/exports/accounts/third-party",
       method := some "POST",
       body := some (.account (optOr opts.email "REQUIRED")
         (optOr opts.password "REQUIRED") "REACHINBOX"),
       description := some "Add Reachinbox account credentials" },
     { action := "api", path := some "/v2/exports/mailboxes",
       method := some "POST",
       body := some (.exportReq ["REACHINBOX"] (some "ACTIVE") none none),
       description := some "Export all active mailboxes to Reachinbox" }]
  | some .EXPORT_TO_INSTANTLY =>
    [{ action := "info",
       note := some "Export to Instantly requires credentials. Please provide your Instantly email and password." },
     { action := "api", path := some "/v2/exports/accounts/third-party",
       method := some "POST",
       body := some (.account (optOr opts.email "REQUIRED")
         (optOr opts.password "REQUIRED") "INSTANTLY"),
       description := some "Add Instantly account credentials" },
     { action := "api", path := some "/v2/exports/mailboxes",
       method := some "POST",
       body := some (.exportReq ["INSTANTLY"] (some "ACTIVE") none none),
       description := some "Export all active mailboxes to Instantly" }]
  | some .EXPORT_TO_SMARTLEAD =>
    [{ action := "info",
       note := some "Export to Smartlead requires credentials. Please provide your Smartlead email and password." },
     { action := "api", path := some "/v2/exports/accounts/third-party",
       method := some "POST",
       body := some (.account (optOr opts.email "REQUIRED")
         (optOr opts.password "REQUIRED") "SMARTLEAD"),
       description := some "Add Smartlead account credentials" },
     { action := "api", path := some "/v2/exports/mailboxes",
       method := some "POST",
       body := some (.exportReq ["SMARTLEAD"] (some "ACTIVE") none none),
       description := some "Export all active mailboxes to Smartlead" }]
  | some Intent.EXPORT_TO_REPLYIO =>
    [{ action := "info",
       note := some "Export to Reply.io requires credentials. Please provide your Reply.io email and password." },
     { action := "api", path := some "/v2/exports/accounts/third-party",
       method := some "POST",
       body := some (.account (optOr opts.email "REQUIRED")
         (optOr opts.password "REQUIRED") "REPLY_IO"),
       description := some "Add Reply.io account credentials" },
     { action := "api", path := some "/v2/exports/mailboxes",
       method := some "POST",
       body := some (.exportReq ["REPLY_IO"] (some "ACTIVE") none none),
       description := some "Export all active mailboxes to Reply.io" }]
  | some .EXPORT_MAILBOXES =>
    [{ action := "info",
       note := some "Export mailboxes. Please specify target platform or use MANUAL for CSV export." },
     { action := "api", path := some "/v2/exports/mailboxes",
       method := some "POST",
       body := some (.exportReq ["MANUAL"] (some "ACTIVE") none none),
       description := some "Export all active mailboxes as CSV" }]
  | some .EXPORT_CSV =>
    [{ action := "api", path := some "/v2/exports/mailboxes",
       method := some "POST",
       body := some (.exportReq ["MANUAL"] (some "ACTIVE") none none),
       description := some "Export all active mailboxes as CSV file" }]
  | some .EXPORT_SPECIFIC =>
    [{ action := "info",
       note := some "Export specific mailboxes requires mailbox IDs. Please provide the IDs or use filters." },
     { action := "api", path := some "/v2/exports/mailboxes",
       method := some "POST",
       body := some (.exportReq ["MANUAL"] none none
         (some ["REQUIRED_MAILBOX_IDS"])),
       description := some "Export specific mailboxes as CSV" }]
  | some .EXPORT_BY_DOMAIN =>
    match exportByDomainHost q with
    | some domain =>
      [{ action := "api", path := some "/v2/exports/mailboxes",
         method := some "POST",
         body := some (.exportReq ["MANUAL"] (some "ACTIVE")
           (some domain) none),
         description := some ("Export mailboxes from domain " ++ domain ++
           " as CSV") }]
    | none =>
      [{ action := "info",
         note := some "Export by domain requires domain name. Please specify the domain." },
       { action := "api", path := some "/v2/exports/mailboxes",
         method := some "POST",
         body := some (.exportReq ["MANUAL"] (some "ACTIVE")
           (some "DOMAIN_NAME") none),
         description := some "Export mailboxes from specified domain as CSV" }]
  | some .CREATE_AND_CONNECT =>
    [{ action := "api", path := some "/v2/domains", method := some "GET",
       description := some "List domains" },
     { action := "compute",
       note := some "Filter domains with 0 mailboxes, choose target domains" },
     { action := "api", path := some "/v2/mailboxes", method := some "POST",
       bodyFrom := some "createMailboxesForZeroDomains",
       count := some (simpleParseMailboxCount q),
       description := some ("Create " ++
         toString (simpleParseMailboxCount q) ++ " mailboxes/domain") },
     { action := "api", path := some "/v2/exports/accounts/third-party",
       method := some "POST",
       body := some (.account (optOr opts.email "placeholder@example.com")
         (optOr opts.password "APP_PASSWORD") (chooseApp q)),
       description := some ("Connect " ++ chooseApp q) }]
  | none =>
    [{ action := "info",
       note := some "No rule matched. Use dynamic endpoint tools or specify slug/path." }]

/-- `planFromRules(nl, options)`: trim the instruction, find the first
matching intent (with the compound fallback), emit that intent's steps,
and return `{ strategy: "rules", steps }`.  The function is total: it
never throws and always emits at least one step. -/
def planFromRules (nl : String) (opts : PlanOptions) : Plan :=
  let q := jsTrim nl
  { strategy := "rules", steps := stepsFor (matchedIntent q) q opts }

/-! ## LLM planner and plan selection
(src/index.js, planFromLLM and the plan_and_execute handler) -/

/-- What the optional LLM call produced: a transport/parse level failure,
a JSON document without a `steps` array, or a JSON plan. -/
inductive LLMOutcome where
  | fetchError (message : String)
  | nonJsonContent (content : String)
  | jsonNoSteps
  | jsonPlan (steps : List PlanStep)
deriving DecidableEq, Repr

/-- `planFromLLM(nl)`: returns `{ strategy: "llm", steps }` when the
response parses to JSON with a `steps` array; every failure (network
error, non-JSON content, missing `steps`) is caught and returns
`{ strategy: "llm-failed", steps: [info] }` — the function never throws. -/
def planFromLLM (o : LLMOutcome) : Plan :=
  match o with
  | .jsonPlan steps => { strategy := "llm", steps := steps }
  | _ =>
    { strategy := "llm-failed",
      steps := [{ action := "info",
                  note := some "LLM planning failed; fallback to rules." }] }

/-- The plan selection in the `plan_and_execute` tool handler: the rule
plan is computed first; when the LLM planner feature flag is on, its
result replaces the rule plan only if it has a non-empty `steps` array and
its strategy is not `"llm-failed"`. -/
def selectPlan (rulePlan : Plan) (llmEnabled : Bool) (o : LLMOutcome) :
    Plan :=
  if llmEnabled then
    let llm := planFromLLM o
    if 0 < llm.steps.length ∧ llm.strategy ≠ "llm-failed" then llm
    else rulePlan
  else rulePlan

/-! ## Shared lemmas about the JS Map model -/

theorem mapGet_mapSet_self {β : Type} (l : List (String × β)) (k : String)
    (v : β) : mapGet (mapSet l k v) k = some v := by
  induction l with
  | nil => simp [mapSet, mapGet]
  | cons hd tl ih =>
    obtain ⟨k', v'⟩ := hd
    by_cases h : k' = k
    · simp [mapSet, mapGet, h]
    · simp [mapSet, mapGet, h, ih]

theorem mapGet_none_of_not_mem {β : Type} (l : List (String × β)) (k : String)
    (h : k ∉ l.map Prod.fst) : mapGet l k = none := by
  induction l with
  | nil => simp [mapGet]
  | cons hd tl ih =>
    obtain ⟨k', v'⟩ := hd
    simp only [List.map_cons, List.mem_cons] at h
    push_neg at h
    have hne : ¬k' = k := fun hc => h.1 hc.symm
    simp [mapGet, hne, ih h.2]

theorem mapGet_mapDelete_self {β : Type} (l : List (String × β)) (k : String)
    (h : (l.map Prod.fst).Nodup) : mapGet (mapDelete l k) k = none := by
  induction l with
  | nil => simp [mapDelete, mapGet]
  | cons hd tl ih =>
    obtain ⟨k', v'⟩ := hd
    simp only [List.map_cons, List.nodup_cons] at h
    by_cases hk : k' = k
    · subst hk
      simp only [mapDelete, if_pos rfl]
      exact mapGet_none_of_not_mem tl k' h.1
    · simp [mapDelete, mapGet, hk, ih h.2]

theorem mapSet_length_le {β : Type} (l : List (String × β)) (k : String)
    (v : β) : (mapSet l k v).length ≤ l.length + 1 := by
  induction l with
  | nil => simp [mapSet]
  | cons hd tl ih =>
    obtain ⟨k', v'⟩ := hd
    by_cases h : k' = k
    · simp [mapSet, h]
    · simpa [mapSet, h] using ih

theorem mapSet_length_of_mem {β : Type} (l : List (String × β)) (k : String)
    (v : β) (h : k ∈ l.map Prod.fst) : (mapSet l k v).length = l.length := by
  induction l with
  | nil => simp at h
  | cons hd tl ih =>
    obtain ⟨k', v'⟩ := hd
    simp only [List.map_cons, List.mem_cons] at h
    by_cases hk : k' = k
    · simp [mapSet, hk]
    · have : k ∈ tl.map Prod.fst := by
        rcases h with h | h
        · exact absurd h.symm hk
        · exact h
      simp [mapSet, hk, ih this]

theorem mapDelete_length_le {β : Type} (l : List (String × β)) (k : String) :
    (mapDelete l k).length ≤ l.length := by
  induction l with
  | nil => simp [mapDelete]
  | cons hd tl ih =>
    obtain ⟨k', v'⟩ := hd
    by_cases h : k' = k
    · simp [mapDelete, h]
    · simpa [mapDelete, h] using Nat.succ_le_succ ih

theorem set_entries_full {α : Type} (c : CacheT α) (k : String) (v : α)
    (now ttl : Nat) (hd : String × CEntry α) (t : List (String × CEntry α))
    (hent : c.entries = hd :: t) (hfull : c.maxSize ≤ c.entries.length) :
    (c.set k v now ttl).entries = mapSet t k ⟨v, now + ttl⟩ := by
  simp only [CacheT.set, hent]
  rw [if_pos (hent ▸ hfull)]

theorem set_entries_nonfull {α : Type} (c : CacheT α) (k : String) (v : α)
    (now ttl : Nat) (hfull : ¬c.maxSize ≤ c.entries.length) :
    (c.set k v now ttl).entries = mapSet c.entries k ⟨v, now + ttl⟩ := by
  simp only [CacheT.set]
  rw [if_neg hfull]

/-! ## Claims about the Cache -/

/-- C2: `set` then immediate `get` of the same key returns the stored
value; a `get` strictly after the entry's expiry returns `null` and
deletes the entry (given the Map's key uniqueness); a non-expired read
returns the value with the cache unchanged (no TTL refresh); and a `set`
performed at or above capacity drops exactly the first-inserted (oldest)
entry, keeping all the others. -/
theorem cache_set_get_expiry_fifo {α : Type} (c : CacheT α) (k : String)
    (v : α) (now ttl : Nat) :
    (((c.set k v now ttl).get k now).2 = some v)
    ∧ (∀ e : CEntry α, (c.entries.map Prod.fst).Nodup →
        mapGet c.entries k = some e → e.expires < now →
        (c.get k now).2 = none ∧ mapGet (c.get k now).1.entries k = none)
    ∧ (∀ e : CEntry α, mapGet c.entries k = some e → now ≤ e.expires →
        (c.get k now).1 = c ∧ (c.get k now).2 = some e.value)
    ∧ (∀ (k0 : String) (e0 : CEntry α) (rest : List (String × CEntry α)),
        c.entries = (k0, e0) :: rest → c.maxSize ≤ c.entries.length →
        (c.set k v now ttl).entries = mapSet rest k ⟨v, now + ttl⟩) := by
  refine ⟨?_, ?_, ?_, ?_⟩
  · unfold CacheT.set CacheT.get
    simp only [mapGet_mapSet_self]
    simp [Nat.not_lt.mpr (Nat.le_add_right now ttl)]
  · intro e hnd hget hexp
    unfold CacheT.get
    simp only [hget]
    rw [if_pos hexp]
    exact ⟨rfl, mapGet_mapDelete_self _ _ hnd⟩
  · intro e hget hfresh
    unfold CacheT.get
    simp only [hget]
    rw [if_neg (Nat.not_lt.mpr hfresh)]
    exact ⟨rfl, rfl⟩
  · intro k0 e0 rest hentries hcap
    exact set_entries_full c k v now ttl (k0, e0) rest hentries hcap

/-- Concrete cache used to witness the Cache claims. -/
def cacheEx : CacheT Nat :=
  { maxSize := 2, ttl := 10,
    entries := [("a", ⟨1, 5⟩), ("b", ⟨2, 50⟩)] }

/-- Witness for `cache_set_get_expiry_fifo` at `cacheEx`: reading "a" at
time 6 (past its expiry 5) yields `null` and removes it; a `set` at
capacity 2 evicts exactly the oldest entry "a" and keeps "b". -/
theorem cache_set_get_expiry_fifo_witness :
    (((cacheEx.set "x" 7 100 10).get "x" 100).2 = some 7)
    ∧ ((cacheEx.get "a" 6).2 = none
        ∧ mapGet (cacheEx.get "a" 6).1.entries "a" = none)
    ∧ ((cacheEx.set "c" 9 0 10).entries =
        mapSet [("b", ⟨2, 50⟩)] "c" ⟨9, 0 + 10⟩) :=
  ⟨(cache_set_get_expiry_fifo cacheEx "x" 7 100 10).1,
   (cache_set_get_expiry_fifo cacheEx "a" 0 6 0).2.1 ⟨1, 5⟩ (by decide)
     (by decide) (by decide),
   (cache_set_get_expiry_fifo cacheEx "c" 9 0 10).2.2.2 "a" ⟨1, 5⟩
     [("b", ⟨2, 50⟩)] rfl (by decide)⟩

/-- The zero-capacity cache on which the C9 invariant fails. -/
def cacheZero : CacheT Nat := { maxSize := 0, ttl := 5, entries := [] }

/-- C9 counterexample: with `maxSize = 0` the eviction deletes
`undefined` from an empty Map (a no-op), so one `set` makes
`size() = 1 > maxSize = 0` — the claimed invariant is false as stated. -/
theorem cache_size_invariant_counterexample :
    cacheZero.maxSize = 0 ∧ (cacheZero.set "a" 1 0 5).size = 1 := by
  constructor <;> rfl

/-- C9 amended: for `maxSize ≥ 1`, `size() ≤ maxSize` is preserved by
`set`, `get` and `clear`; and a `set` at full capacity always drops the
currently oldest entry first, so overwriting an already-present
non-oldest key at capacity strictly decreases the entry count to
`maxSize - 1`. -/
theorem cache_size_invariant {α : Type} (c : CacheT α) (k : String) (v : α)
    (now ttl : Nat) (hmax : 1 ≤ c.maxSize) (hsize : c.size ≤ c.maxSize) :
    ((c.set k v now ttl).size ≤ c.maxSize)
    ∧ ((c.get k now).1.size ≤ c.maxSize)
    ∧ (c.clear.size ≤ c.maxSize)
    ∧ (∀ (k0 : String) (e0 : CEntry α) (rest : List (String × CEntry α)),
        c.entries = (k0, e0) :: rest → c.size = c.maxSize →
        k ≠ k0 → k ∈ rest.map Prod.fst →
        (c.set k v now ttl).size = c.maxSize - 1
          ∧ (c.set k v now ttl).size < c.size) := by
  have hsz : c.size = c.entries.length := rfl
  refine ⟨?_, ?_, ?_, ?_⟩
  · by_cases hfull : c.maxSize ≤ c.entries.length
    · have hlen : c.entries.length = c.maxSize := by omega
      rcases hent : c.entries with _ | ⟨hd, t⟩
      · rw [hent] at hlen
        simp at hlen
        omega
      · have hset := set_entries_full c k v now ttl hd t hent hfull
        have htl : c.entries.length = t.length + 1 := by rw [hent]; rfl
        show (c.set k v now ttl).entries.length ≤ c.maxSize
        rw [hset]
        have hle := mapSet_length_le t k (⟨v, now + ttl⟩ : CEntry α)
        omega
    · have hset := set_entries_nonfull c k v now ttl hfull
      have hle := mapSet_length_le c.entries k (⟨v, now + ttl⟩ : CEntry α)
      show (c.set k v now ttl).entries.length ≤ c.maxSize
      rw [hset]
      omega
  · show (c.get k now).1.entries.length ≤ c.maxSize
    unfold CacheT.get
    rcases hget : mapGet c.entries k with _ | e
    · exact hsize
    · by_cases hexp : e.expires < now
      · simp only [if_pos hexp]
        exact le_trans (mapDelete_length_le c.entries k) hsize
      · simp only [if_neg hexp]
        exact hsize
  · show c.clear.entries.length ≤ c.maxSize
    simp [CacheT.clear]
  · intro k0 e0 rest hentries hfullEq hne hmem
    have hfull : c.maxSize ≤ c.entries.length := hfullEq.symm.le
    have hset := set_entries_full c k v now ttl (k0, e0) rest hentries hfull
    have hlen : (mapSet rest k ⟨v, now + ttl⟩).length = rest.length :=
      mapSet_length_of_mem rest k _ hmem
    have hclen : c.entries.length = rest.length + 1 := by
      rw [hentries]; rfl
    have hres : (c.set k v now ttl).size = rest.length := by
      show (c.set k v now ttl).entries.length = rest.length
      rw [hset, hlen]
    constructor
    · omega
    · omega

/-- Witness for `cache_size_invariant` at `cacheEx` (capacity 2, size 2):
overwriting the already-present non-oldest key "b" still evicts "a" and
shrinks the cache to one entry. -/
theorem cache_size_invariant_witness :
    ((cacheEx.set "b" 9 0 10).size ≤ cacheEx.maxSize)
    ∧ ((cacheEx.set "b" 9 0 10).size = cacheEx.maxSize - 1
        ∧ (cacheEx.set "b" 9 0 10).size < cacheEx.size) :=
  ⟨(cache_size_invariant cacheEx "b" 9 0 10 (by decide) (by decide)).1,
   (cache_size_invariant cacheEx "b" 9 0 10 (by decide) (by decide)).2.2.2
     "a" ⟨1, 5⟩ [("b", ⟨2, 50⟩)] rfl (by decide) (by decide) (by decide)⟩

/-! ## Claims about the RateLimiter -/

/-- C3: each check prunes to the timestamps newer than `now - windowMs`
and appends the new timestamp; when the pruned count reaches
`maxRequests` the caller is suspended for `windowMs - (now - oldest)`
(the component never raises a rate-limit error — its only effect is this
wait); when the pruned count is below the max there is no wait.  The two
spec scenarios follow concretely: the 11th request inside one window
(max 10, window 60000 ms) waits `60000 - (now - oldest)` = 59900 ms
for requests at times 0..9 checked at time 100, and 10 requests spread
evenly across the window wait 0 each. -/
theorem rateLimiter_checkLimit (maxRequests : Nat) (windowMs : Int)
    (requests : List Int) (now : Int) :
    ((checkLimit maxRequests windowMs requests now).1
      = requests.filter (fun t => now - windowMs < t) ++ [now])
    ∧ (∀ oldest : Int,
        maxRequests ≤ (requests.filter (fun t => now - windowMs < t)).length →
        listMin (requests.filter (fun t => now - windowMs < t)) = some oldest →
        (checkLimit maxRequests windowMs requests now).2
          = windowMs - (now - oldest))
    ∧ ((requests.filter (fun t => now - windowMs < t)).length < maxRequests →
        (checkLimit maxRequests windowMs requests now).2 = 0)
    ∧ ((runChecks 10 60000 []
          [0, 1, 2, 3, 4, 5, 6, 7, 8, 9, 100]).2
        = [0, 0, 0, 0, 0, 0, 0, 0, 0, 0, 59900])
    ∧ ((runChecks 10 60000 []
          [0, 6000, 12000, 18000, 24000, 30000, 36000, 42000, 48000, 54000]).2
        = [0, 0, 0, 0, 0, 0, 0, 0, 0, 0]) := by
  refine ⟨rfl, ?_, ?_, by decide, by decide⟩
  · intro oldest hcount hmin
    simp only [checkLimit]
    rw [if_pos hcount, hmin]
  · intro hlt
    simp only [checkLimit]
    rw [if_neg (Nat.not_le.mpr hlt)]

/-- Witness for `rateLimiter_checkLimit`: ten requests at times 0..9 in a
60000 ms window (max 10) force the check at time 100 to wait
`60000 - (100 - 0)`; with only three recorded requests there is no
wait. -/
theorem rateLimiter_checkLimit_witness :
    ((checkLimit 10 60000 [0, 1, 2, 3, 4, 5, 6, 7, 8, 9] 100).2
      = 60000 - (100 - 0))
    ∧ ((checkLimit 10 60000 [0, 1, 2] 100).2 = 0) :=
  ⟨(rateLimiter_checkLimit 10 60000 [0, 1, 2, 3, 4, 5, 6, 7, 8, 9] 100).2.1
      0 (by decide) (by decide),
   (rateLimiter_checkLimit 10 60000 [0, 1, 2] 100).2.2.1 (by decide)⟩

/-! ## Claims about the request executor -/

/-- C1: a 429/5xx response with retries left always costs one more
attempt after a `min(2500 * (attempt + 1), 9000)` ms backoff; concretely,
responses `[429, 429, 200]` under `maxRetries = 2` give 3 attempts, the
two backoffs `[2500, 5000]`, and resolve with the parsed 200 body, while
three straight 429s exhaust the retries and throw an `ApiError` carrying
the last status (429) and its parsed body. -/
theorem apiFetch_retry_policy (maxRetries attempt status : Nat)
    (json : Option JsonDoc) (statusText text : String)
    (rest : List Outcome) (delays : List Nat)
    (hs : status = 429 ∨ 500 ≤ status) (ha : attempt < maxRetries) :
    (attemptLoop maxRetries attempt
        (.resp status json statusText text :: rest) delays
      = attemptLoop maxRetries (attempt + 1) rest
          (delays ++ [min (2500 * (attempt + 1)) 9000]))
    ∧ (∀ (d : JsonDoc) (j1 j2 : Option JsonDoc),
        apiFetchModel "/v2/workspaces" "GET" false none (some "key") 2
          [.resp 429 j1 "Too Many Requests" "r1",
           .resp 429 j2 "Too Many Requests" "r2",
           .resp 200 (some d) "OK" "ok"]
        = ⟨3, [2500, 5000], .ok (.parsed d)⟩)
    ∧ (∀ d1 d2 d3 : JsonDoc,
        apiFetchModel "/v2/workspaces" "GET" false none (some "key") 2
          [.resp 429 (some d1) "T" "r1", .resp 429 (some d2) "T" "r2",
           .resp 429 (some d3) "T" "r3"]
        = ⟨3, [2500, 5000],
           .error (apiErr 429 (some d3) "T" "r3")⟩) := by
  refine ⟨?_, ?_, ?_⟩
  · simp only [attemptLoop]
    rw [if_pos ⟨hs, ha⟩]
  · intro d j1 j2
    rfl
  · intro d1 d2 d3
    rfl

/-- Witness for `apiFetch_retry_policy` at attempt 0 of `maxRetries = 2`
on a 429 head response. -/
theorem apiFetch_retry_policy_witness :
    (attemptLoop 2 0 [.resp 429 none "T" "r1"] []
      = attemptLoop 2 1 [] ([] ++ [min (2500 * (0 + 1)) 9000]))
    ∧ apiFetchModel "/v2/workspaces" "GET" false none (some "key") 2
        [.resp 429 none "Too Many Requests" "r1",
         .resp 429 none "Too Many Requests" "r2",
         .resp 200 (some { tag := 7 }) "OK" "ok"]
      = ⟨3, [2500, 5000], .ok (.parsed { tag := 7 })⟩ :=
  ⟨(apiFetch_retry_policy 2 0 429 none "T" "r1" [] []
      (Or.inl rfl) (by decide)).1,
   (apiFetch_retry_policy 2 0 429 none "T" "r1" [] []
      (Or.inl rfl) (by decide)).2.1 { tag := 7 } none none⟩

/-- C4 counterexample: with no API key configured, a valid uncached call
fails with the `ValidationError` class (name `ValidationError`, code
`VALIDATION_ERROR`) — the source has no separate `ConfigurationError`
kind, so the thrown error is *not* distinguishable by kind from a
`ValidationError`, contrary to the claim. -/
theorem apiFetch_missing_key_counterexample :
    (apiFetchModel "/v2/workspaces" "POST" true none none 3 []).result
      = .error (valErr "ZAPMAIL_API_KEY not configured" "apiKey")
    ∧ (valErr "ZAPMAIL_API_KEY not configured" "apiKey").name
      = .validationError
    ∧ (valErr "ZAPMAIL_API_KEY not configured" "apiKey").code
      = "VALIDATION_ERROR" :=
  ⟨rfl, rfl, rfl⟩

/-- C4 amended: with valid `path`/`method`, the call not served from the
cache, and no API key, `apiFetch` fails immediately — zero HTTP attempts,
zero backoff delays, hence no retry — with the
`ValidationError("ZAPMAIL_API_KEY not configured", "apiKey", null)`
(code `VALIDATION_ERROR`), not a distinct configuration-error kind. -/
theorem apiFetch_missing_key (path method : String) (cacheEnabled : Bool)
    (cached : Option Val) (maxRetries : Nat) (outcomes : List Outcome)
    (hp : path ≠ "") (hpl : path.length ≤ 1000)
    (hm : method ≠ "") (hml : method.length ≤ 1000)
    (hc : (if method = "GET" && cacheEnabled then cached else none) = none) :
    apiFetchModel path method cacheEnabled cached none maxRetries outcomes
      = ⟨0, [], .error (valErr "ZAPMAIL_API_KEY not configured" "apiKey")⟩ := by
  unfold apiFetchModel
  rw [if_neg hp, if_neg (Nat.not_lt.mpr hpl), if_neg hm,
    if_neg (Nat.not_lt.mpr hml), hc]

/-- Witness for `apiFetch_missing_key` on a POST with three retries
available: none is used. -/
theorem apiFetch_missing_key_witness :
    apiFetchModel "/v2/domains/buy" "POST" true none none 3
        [.resp 200 none "OK" "ok"]
      = ⟨0, [], .error (valErr "ZAPMAIL_API_KEY not configured" "apiKey")⟩ :=
  apiFetch_missing_key "/v2/domains/buy" "POST" true none 3
    [.resp 200 none "OK" "ok"] (by decide) (by decide) (by decide)
    (by decide) (by decide)

/-! ## Claims about the wallet-first purchase flow -/

/-- Concrete availability responses for the C5 scenario: `a.com` resolves
to price 100 and `b.com` to price 50, so two one-year domains total 150. -/
def availEx : String → AvailResp := fun d =>
  if d = "a.com" then
    { availableDomains := some [{ domainName := "a.com",
                                  domainPrice := some 100 }] }
  else
    { availableDomains := some [{ domainName := "b.com",
                                  domainPrice := some 50 }] }

/-- C5: with `preferWallet = true`, the `useWallet` flag of
`purchaseDomains` equals `balance >= total`, where `total` sums each
requested domain's resolved price times `years`; concretely, balance 100
against total 150 gives `useWallet = false` and balance 200 against 150
gives `useWallet = true`. -/
theorem purchaseDomains_useWallet (domains : List String)
    (availOf : String → AvailResp) (years bal : Int) :
    ((purchaseDomainsModel domains availOf years true bal).1
      = decide (purchaseTotal domains availOf years ≤ bal))
    ∧ (purchaseTotal ["a.com", "b.com"] availEx 1 = 150)
    ∧ ((purchaseDomainsModel ["a.com", "b.com"] availEx 1 true 100).1 = false)
    ∧ ((purchaseDomainsModel ["a.com", "b.com"] availEx 1 true 200).1 = true) := by
  refine ⟨rfl, by decide, by decide, by decide⟩

/-! ## Claims about the natural-language planner -/

/-- The C6 instruction. -/
def c6instr : String :=
  "create 3 mailboxes on zero domains and connect to instantly"

/-- The standalone `CREATE_MAILBOXES_EMPTY` step sequence for a count of
3 mailboxes. -/
def standaloneCreateSteps : List PlanStep :=
  [{ action := "api", path := some "/v2/domains", method := some "GET",
     description := some "List domains" },
   { action := "compute", note := some "Filter domains with 0 mailboxes" },
   { action := "api", path := some "/v2/mailboxes", method := some "POST",
     bodyFrom := some "createMailboxesForZeroDomains", count := some 3,
     description := some "Create 3 mailboxes on each zero-mailbox domain" }]

/-- The compound `CREATE_AND_CONNECT` step sequence for a count of 3 and
the default app INSTANTLY. -/
def compoundCreateConnectSteps : List PlanStep :=
  [{ action := "api", path := some "/v2/domains", method := some "GET",
     description := some "List domains" },
   { action := "compute",
     note := some "Filter domains with 0 mailboxes, choose target domains" },
   { action := "api", path := some "/v2/mailboxes", method := some "POST",
     bodyFrom := some "createMailboxesForZeroDomains", count := some 3,
     description := some "Create 3 mailboxes/domain" },
   { action := "api", path := some "/v2/exports/accounts/third-party",
     method := some "POST",
     body := some (.account "placeholder@example.com" "APP_PASSWORD"
       "INSTANTLY"),
     description := some "Connect INSTANTLY" }]

/-- C6 counterexample: "create 3 mailboxes on zero domains and connect to
instantly" matches the `CREATE_MAILBOXES_EMPTY` pattern (checked before
any connect handling and before the compound fallback, which only runs
when no pattern matched), so `planFromRules` emits the standalone
three-step create-mailboxes sequence with no connect step — not the
compound create-and-connect sequence the claim requires. -/
theorem planner_compound_priority_counterexample :
    planFromRules c6instr {} =
      { strategy := "rules", steps := standaloneCreateSteps }
    ∧ ((planFromRules c6instr {}).steps.filter
        (fun st => st.path == some "/v2/exports/accounts/third-party")) = [] := by
  constructor
  · decide
  · decide

/-- C6 amended: the instruction "create 3 mailboxes on zero domains and
connect to instantly" produces the standalone create-mailboxes sequence,
because `CREATE_MAILBOXES_EMPTY` is the first matching pattern; the
compound create-and-connect sequence is produced only when no single
intent pattern matches but mailbox and connect keywords are both present
— e.g. "setup 3 mailboxes and connect my account". -/
theorem planner_compound_priority :
    (matchedIntent (jsTrim c6instr) = some .CREATE_MAILBOXES_EMPTY
      ∧ planFromRules c6instr {} =
        { strategy := "rules", steps := standaloneCreateSteps })
    ∧ (matchedIntent (jsTrim "setup 3 mailboxes and connect my account")
        = some .CREATE_AND_CONNECT
      ∧ planFromRules "setup 3 mailboxes and connect my account" {} =
        { strategy := "rules", steps := compoundCreateConnectSteps }) := by
  refine ⟨⟨by decide, by decide⟩, ⟨by decide, by decide⟩⟩

/-- C7: the `CHECK_DOMAIN` pattern
`\b(check|is|are)\b.*\b(domain|domains?)\b.*\bavailable\b` requires the
literal word "domain", which the documented instruction "check if
example.com is available for 1 year" does not contain; no other pattern
matches either, so the planner returns the single no-rule-matched `info`
step instead of the availability-check step.  Inserting the word "domain"
yields the availability plan with body
`{domainName: "example.com", years: 1}`, confirming the pattern is the
culprit. -/
theorem planner_availability_instruction :
    planFromRules "check if example.com is available for 1 year" {} =
      { strategy := "rules",
        steps := [{ action := "info",
                    note := some "No rule matched. Use dynamic endpoint tools or specify slug/path." }] }
    ∧ planFromRules "check if domain example.com is available for 1 year" {} =
      { strategy := "rules",
        steps := [{ action := "decision",
                    note := some "Wallet-first is irrelevant for availability; proceed to availability check." },
                  { action := "api",
                    slug := some "get-available-domains-for-registration-13521189e0",
                    path := some "/v2/domains/available",
                    method := some "POST",
                    body := some (.availability "example.com" 1),
                    description := some "Check availability for example.com" }] } := by
  constructor
  · decide
  · decide

/-- Every intent branch of `planFromRules` emits at least one step. -/
theorem stepsFor_ne_nil (m : Option Intent) (q : String) (o : PlanOptions) :
    stepsFor m q o ≠ [] := by
  cases m with
  | none => simp [stepsFor]
  | some it =>
    cases it <;> try simp [stepsFor]
    case EXPORT_BY_DOMAIN =>
      cases h : exportByDomainHost q <;> simp [stepsFor, h]

/-- C10: `planFromRules` is total — for every instruction and options it
returns strategy "rules" with a non-empty step list (the function is a
pure total function, so it never throws); when no intent pattern matches
and the compound fallback does not apply, the plan is exactly the single
no-rule-matched `info` step; and when `CHECK_DOMAIN` matches but no
domain with a recognized TLD (com|net|org|io|ai|app|co|in) is extracted,
the plan is exactly the decision note, with no `api` step. -/
theorem planFromRules_total (nl : String) (opts : PlanOptions) :
    ((planFromRules nl opts).strategy = "rules")
    ∧ ((planFromRules nl opts).steps ≠ [])
    ∧ (matchedIntent (jsTrim nl) = none →
        (planFromRules nl opts).steps =
          [{ action := "info",
             note := some "No rule matched. Use dynamic endpoint tools or specify slug/path." }])
    ∧ (matchedIntent (jsTrim nl) = some .CHECK_DOMAIN →
        simpleParseDomains (jsTrim nl) = [] →
        (planFromRules nl opts).steps =
          [{ action := "decision",
             note := some "Wallet-first is irrelevant for availability; proceed to availability check." }]) := by
  refine ⟨rfl, stepsFor_ne_nil _ _ _, ?_, ?_⟩
  · intro h
    simp [planFromRules, h, stepsFor]
  · intro h hd
    simp [planFromRules, h, hd, stepsFor]

/-- Witness for `planFromRules_total`: "hello world" matches nothing and
yields the single info step; "check if the domain is available" matches
`CHECK_DOMAIN` with no extractable domain and yields only the decision
note. -/
theorem planFromRules_total_witness :
    ((planFromRules "hello world" {}).steps =
      [{ action := "info",
         note := some "No rule matched. Use dynamic endpoint tools or specify slug/path." }])
    ∧ ((planFromRules "check if the domain is available" {}).steps =
      [{ action := "decision",
         note := some "Wallet-first is irrelevant for availability; proceed to availability check." }]) :=
  ⟨(planFromRules_total "hello world" {}).2.2.1 (by decide),
   (planFromRules_total "check if the domain is available" {}).2.2.2
     (by decide) (by decide)⟩

/-! ## Claims about the LLM tier fallback -/

/-- C8 counterexample: when the LLM tier fails (here: a network error),
the `plan_and_execute` handler returns the rule-based plan whose
`strategy` is `"rules"` — it is *not* marked as failed
(`planFromLLM`'s own `"llm-failed"` marker is discarded by the
selection), so the degraded output is indistinguishable from a plain
rule-based plan, contrary to the claim. -/
theorem planner_llm_fallback_counterexample :
    selectPlan (planFromRules "list all workspaces" {}) true
        (.fetchError "network error")
      = planFromRules "list all workspaces" {}
    ∧ (selectPlan (planFromRules "list all workspaces" {}) true
        (.fetchError "network error")).strategy = "rules"
    ∧ (planFromLLM (.fetchError "network error")).strategy = "llm-failed" := by
  refine ⟨by decide, by decide, rfl⟩

/-- C8 amended: on any LLM-tier failure (network error, non-JSON content,
JSON without a `steps` array), `plan_and_execute` returns the rule-based
plan unchanged and without raising (`planFromLLM` catches every failure
internally and returns the `"llm-failed"` marker, which the handler's
selection then discards) — so the caller receives strategy `"rules"` and
cannot distinguish the degraded output by the strategy field. -/
theorem planner_llm_fallback (rulePlan : Plan) (o : LLMOutcome)
    (h : ∀ s : List PlanStep, o ≠ .jsonPlan s) :
    selectPlan rulePlan true o = rulePlan
    ∧ (planFromLLM o).strategy = "llm-failed" := by
  cases o with
  | fetchError m => exact ⟨by simp [selectPlan, planFromLLM], rfl⟩
  | nonJsonContent c => exact ⟨by simp [selectPlan, planFromLLM], rfl⟩
  | jsonNoSteps => exact ⟨by simp [selectPlan, planFromLLM], rfl⟩
  | jsonPlan s => exact absurd rfl (h s)

/-- Witness for `planner_llm_fallback` at a concrete rule plan and a
concrete network failure. -/
theorem planner_llm_fallback_witness :
    selectPlan { strategy := "rules", steps := [{ action := "info" }] } true
        (.fetchError "boom")
      = { strategy := "rules", steps := [{ action := "info" }] }
    ∧ (planFromLLM (.fetchError "boom")).strategy = "llm-failed" :=
  planner_llm_fallback { strategy := "rules", steps := [{ action := "info" }] }
    (.fetchError "boom") (fun s h => by cases h)

end Zapmail
